import Mathlib

/-!
Shallow embedding of the LiveAuth MCP bridge (canonical dispatcher variant,
the one with demo mode, status/lnurl/refresh tools and optional confirm
fields).  Tool arguments and remote JSON bodies are modelled as association
lists of JSON values; JavaScript truthiness is modelled explicitly.  The
network is an oracle `Env.fetch` supplied per invocation; every outbound
request a handler performs is recorded in a trace.  Numbers are modelled as
integers (the program only ever handles integral counts, sats and unix
times), and demo-session map keys as strings (the TS map is declared
`Map<string, DemoSession>`).
-/

namespace LiveAuth

/-- JSON values, as parsed request/response bodies and argument bags. -/
inductive JVal where
  | jnull : JVal
  | jbool : Bool → JVal
  | jnum : Int → JVal
  | jstr : String → JVal
  | jobj : List (String × JVal) → JVal

/-- A JSON object: ordered field list, as produced by object literals. -/
abbrev JObj := List (String × JVal)

/-- First binding of a key in an object (objects built by the program have
no duplicate keys). -/
def getField : JObj → String → Option JVal
  | [], _ => none
  | (k, v) :: rest, key => if k = key then some v else getField rest key

/-- Key presence, the JS `'k' in obj` test. -/
def hasField (o : JObj) (k : String) : Bool :=
  (getField o k).isSome

/-- JavaScript truthiness of a defined value. -/
def jvTruthy : JVal → Bool
  | .jnull => false
  | .jbool b => b
  | .jnum n => n != 0
  | .jstr s => s != ""
  | .jobj _ => true

/-- Truthiness of a possibly-undefined value (`none` is `undefined`). -/
def jvTruthyOpt : Option JVal → Bool
  | some v => jvTruthy v
  | none => false

/-- JS string coercion of a defined value, as in template interpolation. -/
def jvToString : JVal → String
  | .jnull => "null"
  | .jbool b => if b then "true" else "false"
  | .jnum n => toString n
  | .jstr s => s
  | .jobj _ => "[object Object]"

/-- String coercion of a possibly-undefined value. -/
def optToString : Option JVal → String
  | some v => jvToString v
  | none => "undefined"

/-- The JS `a || d` default: `a` when defined and truthy, else `d`. -/
def jvOrD (a : Option JVal) (d : JVal) : JVal :=
  match a with
  | some v => if jvTruthy v then v else d
  | none => d

/-- The JS `a || b` on possibly-undefined operands, keeping undefinedness. -/
def jsOrOpt (a b : Option JVal) : Option JVal :=
  if jvTruthyOpt a then a else b

/-- Property access `v.k` on an arbitrary value (undefined off objects). -/
def jvGet (v : JVal) (k : String) : Option JVal :=
  match v with
  | .jobj o => getField o k
  | _ => none

/-- `${obj.k}` interpolation of a field. -/
def fieldToString (o : JObj) (k : String) : String :=
  optToString (getField o k)

/-- Object-literal entry whose value may be `undefined` (dropped by
`JSON.stringify`). -/
def optEntry (k : String) (v : Option JVal) : JObj :=
  match v with
  | some w => [(k, w)]
  | none => []

/-- Object-literal entry written only when the value is defined and truthy
(the `if (x) body.k = x` idiom). -/
def truthyEntry (k : String) (v : Option JVal) : JObj :=
  match v with
  | some w => if jvTruthy w then [(k, w)] else []
  | none => []

/-- Environment configuration: base URL, bridge API key, and the
`LIVEAUTH_DEMO === 'true'` flag. -/
structure Config where
  apiBase : String
  apiKey : String
  demoEnv : Bool

/-- `LIVEAUTH_DEMO`: forced by the env flag, or defaulted on when no API
key is configured. -/
def Config.demo (c : Config) : Bool :=
  c.demoEnv || c.apiKey == ""

/-- One tracked demo payment record.  The TS field types are unchecked
casts, so invoice/amount/hash keep their dynamic values; only `paid` and
`createdAt` are ever written by literal typed values and later read. -/
structure DemoSession where
  quoteId : String
  invoice : JVal
  amountSats : JVal
  paymentHash : JVal
  paid : Bool
  createdAt : Int

/-- Process-lifetime mutable state: the cached JWT (dynamically typed,
`none` = null/undefined) and the demo session map. -/
structure ServerState where
  cachedJwt : Option JVal
  demoSessions : List (String × DemoSession)

/-- The state at process start. -/
def initialState : ServerState := ⟨none, []⟩

/-- Association-list read, the `Map.get`/`Map.has` of demo sessions. -/
def alGet : List (String × DemoSession) → String → Option DemoSession
  | [], _ => none
  | (k, v) :: rest, key => if k = key then some v else alGet rest key

/-- Association-list write, the `Map.set` (replace in place or append). -/
def alSet : List (String × DemoSession) → String → DemoSession →
    List (String × DemoSession)
  | [], key, v => [(key, v)]
  | (k, w) :: rest, key, v =>
      if k = key then (k, v) :: rest else (k, w) :: alSet rest key v

/-- An outbound HTTP request as issued through `fetch`. -/
structure FetchRequest where
  url : String
  method : String
  headers : List (String × String)
  body : Option JObj

/-- What the network returns for one fetch: a rejected promise (transport
error) or a response with its `ok` flag, status text and parsed JSON body. -/
inductive FetchOutcome where
  | fthrow : String → FetchOutcome
  | fresp : Bool → String → JObj → FetchOutcome

/-- Per-invocation ambient environment: the clock (`Date.now()`), the
random suffix drawn by `Math.random().toString(36).substr(2, 9)`, and the
network oracle. -/
structure Env where
  now : Int
  rand : String
  fetch : FetchRequest → FetchOutcome

/-- The text content of a response envelope: either a plain message or a
`JSON.stringify`-rendered object. -/
inductive OutText where
  | plain : String → OutText
  | json : JObj → OutText

/-- The MCP response envelope: one text content block plus the error flag. -/
structure Envelope where
  text : OutText
  isError : Bool

/-- Result of one dispatched tool call: the post state, the envelope, and
the outbound requests performed (in order). -/
structure Invoked where
  state : ServerState
  out : Envelope
  trace : List FetchRequest

/-- A handler's raw outcome: the requests it issued, and either a thrown
error message or the new state plus the success envelope.  In this program
every `throw` happens before any state mutation of the same handler, so an
error carries no state. -/
def HOut := List FetchRequest × Except String (ServerState × Envelope)

/-- Message of the error thrown on a non-2xx response:
`error.error_description || fallback`. -/
def remoteErrMsg (b : JObj) (fallback : String) : String :=
  match getField b "error_description" with
  | some v => if jvTruthy v then jvToString v else fallback
  | none => fallback

/-- The constant JSON content-type header. -/
def contentTypeHeader : String × String := ("Content-Type", "application/json")

/-- `getAuthHeaders()`: content type plus the bridge key header when a key
is configured and demo mode is off. -/
def getAuthHeaders (cfg : Config) : List (String × String) :=
  if cfg.apiKey != "" && !cfg.demo then
    [contentTypeHeader, ("X-LW-Public", cfg.apiKey)]
  else [contentTypeHeader]

/-- Headers of charge/usage: content type plus `Authorization: Bearer`
when the cached JWT is truthy. -/
def bearerHeaders (st : ServerState) : List (String × String) :=
  match st.cachedJwt with
  | some v =>
      if jvTruthy v then
        [contentTypeHeader, ("Authorization", "Bearer " ++ jvToString v)]
      else [contentTypeHeader]
  | none => [contentTypeHeader]

/-- `forceLightning ?? false` (nullish coalescing). -/
def forceLightningVal (args : JObj) : JVal :=
  match getField args "forceLightning" with
  | none => .jbool false
  | some .jnull => .jbool false
  | some v => v

/-- The outgoing confirm payload: `quoteId` always written (dropped by
stringify only when undefined), each proof-of-work field guarded by its
source condition — truthiness for the string/number fields, definedness
for `nonce` — and `signature` renamed to `sig` on the wire. -/
def confirmBody (args : JObj) : JObj :=
  optEntry "quoteId" (getField args "quoteId")
  ++ truthyEntry "challengeHex" (getField args "challengeHex")
  ++ optEntry "nonce" (getField args "nonce")
  ++ truthyEntry "hashHex" (getField args "hashHex")
  ++ truthyEntry "expiresAtUnix" (getField args "expiresAtUnix")
  ++ truthyEntry "difficultyBits" (getField args "difficultyBits")
  ++ truthyEntry "sig" (getField args "signature")

/-- The start request (demo endpoint when demo mode is on). -/
def startRequest (cfg : Config) (args : JObj) : FetchRequest :=
  ⟨cfg.apiBase ++ (if cfg.demo then "/api/public/demo/start" else "/api/mcp/start"),
   "POST", getAuthHeaders cfg, some [("forceLightning", forceLightningVal args)]⟩

/-- The confirm request. -/
def confirmRequest (cfg : Config) (args : JObj) : FetchRequest :=
  ⟨cfg.apiBase ++ "/api/mcp/confirm", "POST", getAuthHeaders cfg,
   some (confirmBody args)⟩

/-- The charge request (bearer header from the current state). -/
def chargeRequest (cfg : Config) (st : ServerState) (args : JObj) : FetchRequest :=
  ⟨cfg.apiBase ++ "/api/mcp/charge", "POST", bearerHeaders st,
   some (optEntry "callCostSats" (getField args "callCostSats"))⟩

/-- The usage request (bearer header from the current state). -/
def usageRequest (cfg : Config) (st : ServerState) : FetchRequest :=
  ⟨cfg.apiBase ++ "/api/mcp/usage", "GET", bearerHeaders st, none⟩

/-- The status request (quote id interpolated into the path). -/
def statusRequest (cfg : Config) (args : JObj) : FetchRequest :=
  ⟨cfg.apiBase ++ "/api/mcp/status/" ++ optToString (getField args "quoteId"),
   "GET", getAuthHeaders cfg, none⟩

/-- The invoice-lookup request. -/
def lnurlRequest (cfg : Config) (args : JObj) : FetchRequest :=
  ⟨cfg.apiBase ++ "/api/mcp/lnurl/" ++ optToString (getField args "quoteId"),
   "GET", getAuthHeaders cfg, none⟩

/-- The refresh request (plain content-type header only). -/
def refreshRequest (cfg : Config) (args : JObj) : FetchRequest :=
  ⟨cfg.apiBase ++ "/api/mcp/refresh", "POST", [contentTypeHeader],
   some (optEntry "refreshToken" (getField args "refreshToken"))⟩

/-- The quoteId argument as a demo-map key (the map is string-keyed). -/
def demoKey (args : JObj) : Option String :=
  match getField args "quoteId" with
  | some (.jstr s) => some s
  | _ => none

/-- The `LIVEAUTH_DEMO && demoSessions.has(quoteId)` guard, returning the
key and record on a hit. -/
def demoHit (cfg : Config) (st : ServerState) (args : JObj) :
    Option (String × DemoSession) :=
  if cfg.demo then
    match demoKey args with
    | some q =>
        match alGet st.demoSessions q with
        | some s => some (q, s)
        | none => none
    | none => none
  else none

/-- The synthetic demo JWT minted on demo confirm. -/
def demoJwt (env : Env) : String :=
  "demo_jwt_" ++ toString env.now ++ "_" ++ env.rand

/-- `result.paymentStatus === 'pending'`. -/
def isPendingResp (b : JObj) : Bool :=
  match getField b "paymentStatus" with
  | some (.jstr s) => s == "pending"
  | _ => false

/-- `result.status === 'deny'`. -/
def isDenyResp (b : JObj) : Bool :=
  match getField b "status" with
  | some (.jstr s) => s == "deny"
  | _ => false

/-- The budget-denied message built from the charge response counters. -/
def denyMessage (b : JObj) : String :=
  "Budget exceeded! Calls used: " ++ fieldToString b "callsUsed" ++
  ", Sats used: " ++ fieldToString b "satsUsed" ++ ". Stop making API calls."

/-- Stand-in for `new Date(t).toISOString()`; the claims never inspect the
rendered timestamp text, only that some string is produced. -/
def isoOf (t : Int) : String :=
  "date:" ++ toString t

/-- The demo start handler's stored record, built with the source's
`||` fallbacks from the demo endpoint's body `b` and its invoice value. -/
def demoStoredSession (env : Env) (b : JObj) (key : String) (iv : JVal) :
    DemoSession :=
  { quoteId := key,
    invoice := jvOrD (jvGet iv "bolt11") iv,
    amountSats := jvOrD (jvGet iv "amountSats") (jvOrD (getField b "amountSats") (.jnum 0)),
    paymentHash := jvOrD (jvGet iv "paymentHash") (.jstr ""),
    paid := false,
    createdAt := env.now }

/-- The transformed demo start output's invoice object. -/
def demoOutInvoice (b : JObj) : JVal :=
  match getField b "invoice" with
  | some iv =>
      if jvTruthy iv then
        .jobj ([("bolt11", jvOrD (jvGet iv "bolt11") iv),
                ("amountSats", jvOrD (jvGet iv "amountSats") (jvOrD (getField b "amountSats") (.jnum 0)))]
               ++ optEntry "expiresAtUnix" (jsOrOpt (jvGet iv "expiresAtUnix") (getField b "expiresAtUnix"))
               ++ [("paymentHash", jvOrD (jvGet iv "paymentHash") (.jstr ""))])
      else .jnull
  | none => .jnull

/-- The `liveauth_mcp_start` handler. -/
def startHandler (cfg : Config) (env : Env) (st : ServerState) (args : JObj) : HOut :=
  let req := startRequest cfg args
  match env.fetch req with
  | .fthrow m => ([req], .error m)
  | .fresp ok stx b =>
    if !ok then ([req], .error (remoteErrMsg b ("Start failed: " ++ stx)))
    else if cfg.demo && hasField b "invoice" then
      let sidVal := jsOrOpt (getField b "quoteId") (getField b "sessionId")
      let key := optToString sidVal
      let st' :=
        match getField b "invoice" with
        | some iv =>
            if jvTruthy iv then
              { st with demoSessions := alSet st.demoSessions key (demoStoredSession env b key iv) }
            else st
        | none => st
      ([req], .ok (st', ⟨.json
        (optEntry "quoteId" sidVal ++
         [("powChallenge", .jnull),
          ("invoice", demoOutInvoice b),
          ("_demo", .jbool true),
          ("_instructions", .jstr "Demo mode: Payment simulated. Use liveauth_mcp_confirm to complete.")]),
        false⟩))
    else ([req], .ok (st, ⟨.json b, false⟩))

/-- The demo confirm output object. -/
def demoConfirmOut (env : Env) : JObj :=
  [("jwt", .jstr (demoJwt env)),
   ("expiresIn", .jnum 3600),
   ("remainingBudgetSats", .jnum 1000),
   ("paymentStatus", .jstr "paid"),
   ("_demo", .jbool true),
   ("_note", .jstr "Demo mode - this is a simulated JWT")]

/-- The `liveauth_mcp_confirm` handler. -/
def confirmHandler (cfg : Config) (env : Env) (st : ServerState) (args : JObj) : HOut :=
  match demoHit cfg st args with
  | some (q, sess) =>
      let st' := { st with
        demoSessions := alSet st.demoSessions q { sess with paid := true },
        cachedJwt := some (.jstr (demoJwt env)) }
      ([], .ok (st', ⟨.json (demoConfirmOut env), false⟩))
  | none =>
      let req := confirmRequest cfg args
      match env.fetch req with
      | .fthrow m => ([req], .error m)
      | .fresp ok stx b =>
        if !ok then ([req], .error (remoteErrMsg b ("Confirm failed: " ++ stx)))
        else if isPendingResp b then
          ([req], .ok (st, ⟨.plain ("Lightning payment pending. Poll with liveauth_mcp_status using quoteId: " ++ optToString (getField args "quoteId")), false⟩))
        else
          let st' := if jvTruthyOpt (getField b "jwt") then
              { st with cachedJwt := getField b "jwt" }
            else st
          ([req], .ok (st', ⟨.json b, false⟩))

/-- The `liveauth_mcp_charge` handler. -/
def chargeHandler (cfg : Config) (env : Env) (st : ServerState) (args : JObj) : HOut :=
  let req := chargeRequest cfg st args
  match env.fetch req with
  | .fthrow m => ([req], .error m)
  | .fresp ok stx b =>
    if !ok then ([req], .error (remoteErrMsg b ("Charge failed: " ++ stx)))
    else if isDenyResp b then ([req], .ok (st, ⟨.plain (denyMessage b), true⟩))
    else ([req], .ok (st, ⟨.json b, false⟩))

/-- The fixed demo usage output. -/
def usageDemoJson : JObj :=
  [("status", .jstr "active"),
   ("callsUsed", .jnum 0),
   ("satsUsed", .jnum 0),
   ("maxSatsPerDay", .jnum 1000),
   ("remainingBudgetSats", .jnum 1000),
   ("maxCallsPerMinute", .jnum 60),
   ("_demo", .jbool true)]

/-- The `liveauth_mcp_usage` handler. -/
def usageHandler (cfg : Config) (env : Env) (st : ServerState) (_args : JObj) : HOut :=
  if cfg.demo then ([], .ok (st, ⟨.json usageDemoJson, false⟩))
  else
    let req := usageRequest cfg st
    match env.fetch req with
    | .fthrow m => ([req], .error m)
    | .fresp ok stx b =>
      if !ok then ([req], .error (remoteErrMsg b ("Usage query failed: " ++ stx)))
      else ([req], .ok (st, ⟨.json b, false⟩))

/-- The demo status output for the (possibly just flipped) record. -/
def statusDemoOut (env : Env) (sess : DemoSession) : JObj :=
  [("quoteId", .jstr sess.quoteId),
   ("status", .jstr (if sess.paid then "confirmed" else "pending")),
   ("paymentStatus", .jstr (if sess.paid then "paid" else "pending")),
   ("expiresAt", .jstr (isoOf (env.now + 300000))),
   ("_demo", .jbool true),
   ("_instructions", .jstr (if sess.paid then "Payment confirmed in demo mode. Use liveauth_mcp_confirm to get JWT." else "Demo mode: Invoice generated but not actually paid. Use liveauth_mcp_confirm to simulate completion."))]

/-- The `liveauth_mcp_status` handler.  The demo record is mutated only
when the elapsed-time guard fires, mirroring the conditional assignment. -/
def statusHandler (cfg : Config) (env : Env) (st : ServerState) (args : JObj) : HOut :=
  match demoHit cfg st args with
  | some (q, sess) =>
      let flip := !sess.paid && decide (env.now - sess.createdAt > 2000)
      let sess' := if flip then { sess with paid := true } else sess
      let st' := if flip then { st with demoSessions := alSet st.demoSessions q sess' } else st
      ([], .ok (st', ⟨.json (statusDemoOut env sess'), false⟩))
  | none =>
      let req := statusRequest cfg args
      match env.fetch req with
      | .fthrow m => ([req], .error m)
      | .fresp ok stx b =>
        if !ok then ([req], .error (remoteErrMsg b ("Status check failed: " ++ stx)))
        else ([req], .ok (st, ⟨.json b, false⟩))

/-- The `liveauth_mcp_lnurl` handler. -/
def lnurlHandler (cfg : Config) (env : Env) (st : ServerState) (args : JObj) : HOut :=
  let req := lnurlRequest cfg args
  match env.fetch req with
  | .fthrow m => ([req], .error m)
  | .fresp ok stx b =>
    if !ok then ([req], .error (remoteErrMsg b ("Lnurl fetch failed: " ++ stx)))
    else ([req], .ok (st, ⟨.json b, false⟩))

/-- The `liveauth_mcp_refresh` handler: on success the cached JWT is
overwritten unconditionally with the response's `jwt` field. -/
def refreshHandler (cfg : Config) (env : Env) (st : ServerState) (args : JObj) : HOut :=
  let req := refreshRequest cfg args
  match env.fetch req with
  | .fthrow m => ([req], .error m)
  | .fresp ok stx b =>
    if !ok then ([req], .error (remoteErrMsg b ("Refresh failed: " ++ stx)))
    else ([req], .ok ({ st with cachedJwt := getField b "jwt" }, ⟨.json b, false⟩))

/-- The published tool names. -/
def knownTools : List String :=
  ["liveauth_mcp_start", "liveauth_mcp_status", "liveauth_mcp_lnurl",
   "liveauth_mcp_confirm", "liveauth_mcp_charge", "liveauth_mcp_usage",
   "liveauth_mcp_refresh"]

/-- The `switch (name)` of the CallTool handler. -/
def dispatch (cfg : Config) (env : Env) (st : ServerState) (name : String) (args : JObj) : HOut :=
  if name = "liveauth_mcp_start" then startHandler cfg env st args
  else if name = "liveauth_mcp_confirm" then confirmHandler cfg env st args
  else if name = "liveauth_mcp_charge" then chargeHandler cfg env st args
  else if name = "liveauth_mcp_usage" then usageHandler cfg env st args
  else if name = "liveauth_mcp_status" then statusHandler cfg env st args
  else if name = "liveauth_mcp_lnurl" then lnurlHandler cfg env st args
  else if name = "liveauth_mcp_refresh" then refreshHandler cfg env st args
  else ([], .error ("Unknown tool: " ++ name))

/-- The dispatcher with its surrounding try/catch: a thrown message `m`
becomes the error-flagged envelope `Error: m`, and the state visible to the
next call is the entry state (every throw in this program precedes the
handler's state writes). -/
def invoke (cfg : Config) (env : Env) (st : ServerState) (name : String) (args : JObj) : Invoked :=
  match dispatch cfg env st name args with
  | (tr, .ok (st', e)) => ⟨st', e, tr⟩
  | (tr, .error m) => ⟨st, ⟨.plain ("Error: " ++ m), true⟩, tr⟩

/-! ### Basic lemmas about field lookup and the session map -/

theorem getField_append (xs ys : JObj) (k : String) :
    getField (xs ++ ys) k = (getField xs k).or (getField ys k) := by
  induction xs with
  | nil => rfl
  | cons hd tl ih =>
      obtain ⟨k', v⟩ := hd
      by_cases h : k' = k <;> simp [getField, h, ih, Option.or]

theorem getField_optEntry_self (k : String) (o : Option JVal) :
    getField (optEntry k o) k = o := by
  cases o <;> simp [optEntry, getField]

theorem getField_optEntry_ne (k k' : String) (o : Option JVal) (h : k ≠ k') :
    getField (optEntry k o) k' = none := by
  cases o <;> simp [optEntry, getField, h]

theorem getField_truthyEntry_self (k : String) (o : Option JVal) :
    getField (truthyEntry k o) k = if jvTruthyOpt o then o else none := by
  cases o with
  | none => simp [truthyEntry, jvTruthyOpt, getField]
  | some v =>
      by_cases h : jvTruthy v <;> simp [truthyEntry, jvTruthyOpt, h, getField]

theorem getField_truthyEntry_ne (k k' : String) (o : Option JVal) (h : k ≠ k') :
    getField (truthyEntry k o) k' = none := by
  cases o with
  | none => simp [truthyEntry, getField]
  | some v =>
      by_cases hv : jvTruthy v <;> simp [truthyEntry, hv, getField, h]

theorem alGet_alSet (l : List (String × DemoSession)) (k : String) (v : DemoSession) (k' : String) :
    alGet (alSet l k v) k' = if k = k' then some v else alGet l k' := by
  induction l with
  | nil => by_cases h : k = k' <;> simp [alSet, alGet, h]
  | cons hd tl ih =>
      obtain ⟨k0, v0⟩ := hd
      by_cases h0 : k0 = k
      · subst h0
        by_cases h1 : k0 = k' <;> simp [alSet, alGet, h1]
      · simp only [alSet, if_neg h0]
        by_cases h1 : k0 = k'
        · subst h1
          have hk : ¬k = k0 := fun hh => h0 hh.symm
          simp [alGet, hk]
        · simp [alGet, h1, ih]

theorem demoHit_some (cfg : Config) (st : ServerState) (args : JObj)
    (q : String) (sess : DemoSession)
    (h : demoHit cfg st args = some (q, sess)) :
    cfg.demo = true ∧ demoKey args = some q ∧ alGet st.demoSessions q = some sess := by
  unfold demoHit at h
  by_cases hd : cfg.demo
  · simp [hd] at h
    cases hk : demoKey args with
    | none => simp [hk] at h
    | some q0 =>
        simp [hk] at h
        cases hg : alGet st.demoSessions q0 with
        | none => simp [hg] at h
        | some s0 =>
            simp [hg] at h
            obtain ⟨hq, hs⟩ := h
            refine ⟨hd, ?_, ?_⟩
            · rw [hq]
            · rw [← hq, hg, hs]
  · simp [hd] at h

theorem demoHit_of (cfg : Config) (st : ServerState) (args : JObj)
    (q : String) (sess : DemoSession)
    (hd : cfg.demo = true) (hk : getField args "quoteId" = some (.jstr q))
    (hg : alGet st.demoSessions q = some sess) :
    demoHit cfg st args = some (q, sess) := by
  unfold demoHit demoKey
  simp [hd, hk, hg]

/-! ### How each handler can change the process state -/

theorem invoke_charge_state (cfg : Config) (env : Env) (st : ServerState) (args : JObj) :
    (invoke cfg env st "liveauth_mcp_charge" args).state = st := by
  unfold invoke dispatch chargeHandler
  rcases hf : env.fetch (chargeRequest cfg st args) with m | ⟨ok, stx, b⟩ <;>
    simp [hf]
  split_ifs <;> rfl

theorem invoke_usage_state (cfg : Config) (env : Env) (st : ServerState) (args : JObj) :
    (invoke cfg env st "liveauth_mcp_usage" args).state = st := by
  unfold invoke dispatch usageHandler
  by_cases hd : cfg.demo
  · simp [hd]
  · rcases hf : env.fetch (usageRequest cfg st) with m | ⟨ok, stx, b⟩ <;>
      simp [hd, hf]
    split_ifs <;> rfl

theorem invoke_lnurl_state (cfg : Config) (env : Env) (st : ServerState) (args : JObj) :
    (invoke cfg env st "liveauth_mcp_lnurl" args).state = st := by
  unfold invoke dispatch lnurlHandler
  rcases hf : env.fetch (lnurlRequest cfg args) with m | ⟨ok, stx, b⟩ <;>
    simp [hf]
  split_ifs <;> rfl

theorem invoke_start_cachedJwt (cfg : Config) (env : Env) (st : ServerState) (args : JObj) :
    (invoke cfg env st "liveauth_mcp_start" args).state.cachedJwt = st.cachedJwt := by
  unfold invoke dispatch startHandler
  rcases hf : env.fetch (startRequest cfg args) with m | ⟨ok, stx, b⟩ <;> simp [hf]
  split_ifs <;> try rfl
  · cases hinv : getField b "invoice" with
    | none => rfl
    | some iv => by_cases ht : jvTruthy iv <;> simp [hinv, ht]

theorem invoke_refresh_sessions (cfg : Config) (env : Env) (st : ServerState) (args : JObj) :
    (invoke cfg env st "liveauth_mcp_refresh" args).state.demoSessions = st.demoSessions := by
  unfold invoke dispatch refreshHandler
  rcases hf : env.fetch (refreshRequest cfg args) with m | ⟨ok, stx, b⟩ <;>
    simp [hf]
  split_ifs <;> rfl

theorem invoke_status_state (cfg : Config) (env : Env) (st : ServerState) (args : JObj) :
    (invoke cfg env st "liveauth_mcp_status" args).state = st ∨
    ∃ q sess, alGet st.demoSessions q = some sess ∧
      (invoke cfg env st "liveauth_mcp_status" args).state =
        { st with demoSessions := alSet st.demoSessions q { sess with paid := true } } := by
  unfold invoke dispatch statusHandler
  simp only [String.reduceEq, reduceIte]
  rcases hd : demoHit cfg st args with _ | ⟨q, sess⟩
  · simp only [hd]
    rcases hf : env.fetch (statusRequest cfg args) with m | ⟨ok, stx, b⟩ <;>
      simp [hf]
    split_ifs <;> simp
  · simp only [hd]
    by_cases hp : sess.paid
    · left
      simp [hp]
    · by_cases ht : env.now - sess.createdAt > 2000
      · right
        refine ⟨q, sess, (demoHit_some cfg st args q sess hd).2.2, ?_⟩
        simp [hp, ht]
      · left
        simp [hp, ht]

theorem invoke_confirm_sessions (cfg : Config) (env : Env) (st : ServerState) (args : JObj) :
    (invoke cfg env st "liveauth_mcp_confirm" args).state.demoSessions = st.demoSessions ∨
    ∃ q sess, alGet st.demoSessions q = some sess ∧
      (invoke cfg env st "liveauth_mcp_confirm" args).state.demoSessions =
        alSet st.demoSessions q { sess with paid := true } := by
  unfold invoke dispatch confirmHandler
  simp only [String.reduceEq, reduceIte]
  rcases hd : demoHit cfg st args with _ | ⟨q, sess⟩
  · simp only [hd]
    rcases hf : env.fetch (confirmRequest cfg args) with m | ⟨ok, stx, b⟩ <;>
      simp [hf]
    split_ifs <;> simp
  · right
    refine ⟨q, sess, (demoHit_some cfg st args q sess hd).2.2, ?_⟩
    simp [hd]

theorem str_append_assoc (a b c : String) : a ++ b ++ c = a ++ (b ++ c) := by
  cases a
  cases b
  cases c
  show String.mk _ = String.mk _
  rw [List.append_assoc]

theorem invoke_unknown (cfg : Config) (env : Env) (st : ServerState) (name : String) (args : JObj)
    (h : name ∉ knownTools) :
    invoke cfg env st name args =
      ⟨st, ⟨.plain ("Error: Unknown tool: " ++ name), true⟩, []⟩ := by
  simp only [knownTools, List.mem_cons, List.not_mem_nil, or_false, not_or] at h
  obtain ⟨h1, h2, h3, h4, h5, h6, h7⟩ := h
  unfold invoke dispatch
  simp [h1, h2, h3, h4, h5, h6, h7]
  rw [← str_append_assoc]
  rfl

theorem invoke_cachedJwt_preserved (cfg : Config) (env : Env) (st : ServerState)
    (name : String) (args : JObj)
    (h1 : name ≠ "liveauth_mcp_confirm") (h2 : name ≠ "liveauth_mcp_refresh") :
    (invoke cfg env st name args).state.cachedJwt = st.cachedJwt := by
  by_cases hs : name = "liveauth_mcp_start"
  · subst hs
    exact invoke_start_cachedJwt cfg env st args
  by_cases hc : name = "liveauth_mcp_charge"
  · subst hc
    rw [invoke_charge_state]
  by_cases hu : name = "liveauth_mcp_usage"
  · subst hu
    rw [invoke_usage_state]
  by_cases hst : name = "liveauth_mcp_status"
  · subst hst
    rcases invoke_status_state cfg env st args with h | ⟨q, sess, _, h⟩ <;> rw [h]
  by_cases hl : name = "liveauth_mcp_lnurl"
  · subst hl
    rw [invoke_lnurl_state]
  · have hm : name ∉ knownTools := by
      simp [knownTools, hs, hc, hu, hst, hl, h1, h2]
    rw [invoke_unknown cfg env st name args hm]

theorem paid_preserved (cfg : Config) (env : Env) (st : ServerState)
    (name : String) (args : JObj) (hname : name ≠ "liveauth_mcp_start")
    (q : String) (sess : DemoSession)
    (hq : alGet st.demoSessions q = some sess) (hp : sess.paid = true) :
    ∃ sess', alGet (invoke cfg env st name args).state.demoSessions q = some sess' ∧
      sess'.paid = true := by
  by_cases hc : name = "liveauth_mcp_confirm"
  · subst hc
    rcases invoke_confirm_sessions cfg env st args with h | ⟨q0, s0, hg0, h⟩
    · exact ⟨sess, by rw [h, hq], hp⟩
    · rw [h, alGet_alSet]
      by_cases he : q0 = q
      · exact ⟨{ s0 with paid := true }, by simp [he], rfl⟩
      · exact ⟨sess, by simp [he, hq], hp⟩
  by_cases hst : name = "liveauth_mcp_status"
  · subst hst
    rcases invoke_status_state cfg env st args with h | ⟨q0, s0, hg0, h⟩
    · exact ⟨sess, by rw [h, hq], hp⟩
    · rw [h]
      show ∃ sess', alGet (alSet st.demoSessions q0 { s0 with paid := true }) q = some sess' ∧ _
      rw [alGet_alSet]
      by_cases he : q0 = q
      · exact ⟨{ s0 with paid := true }, by simp [he], rfl⟩
      · exact ⟨sess, by simp [he, hq], hp⟩
  by_cases hch : name = "liveauth_mcp_charge"
  · subst hch
    exact ⟨sess, by rw [invoke_charge_state, hq], hp⟩
  by_cases hu : name = "liveauth_mcp_usage"
  · subst hu
    exact ⟨sess, by rw [invoke_usage_state, hq], hp⟩
  by_cases hl : name = "liveauth_mcp_lnurl"
  · subst hl
    exact ⟨sess, by rw [invoke_lnurl_state, hq], hp⟩
  by_cases hr : name = "liveauth_mcp_refresh"
  · subst hr
    exact ⟨sess, by rw [invoke_refresh_sessions, hq], hp⟩
  · have hm : name ∉ knownTools := by
      simp [knownTools, hname, hc, hst, hch, hu, hl, hr]
    exact ⟨sess, by rw [invoke_unknown cfg env st name args hm, hq], hp⟩

/-! ### Field-by-field shape of the outgoing confirm payload -/

theorem confirmBody_quoteId (args : JObj) :
    getField (confirmBody args) "quoteId" = getField args "quoteId" := by
  unfold confirmBody
  repeat rw [getField_append]
  rw [getField_optEntry_self,
      getField_truthyEntry_ne "challengeHex" "quoteId" _ (by decide),
      getField_optEntry_ne "nonce" "quoteId" _ (by decide),
      getField_truthyEntry_ne "hashHex" "quoteId" _ (by decide),
      getField_truthyEntry_ne "expiresAtUnix" "quoteId" _ (by decide),
      getField_truthyEntry_ne "difficultyBits" "quoteId" _ (by decide),
      getField_truthyEntry_ne "sig" "quoteId" _ (by decide)]
  cases getField args "quoteId" <;> simp [Option.or]

theorem confirmBody_challengeHex (args : JObj) :
    getField (confirmBody args) "challengeHex" =
      if jvTruthyOpt (getField args "challengeHex") then getField args "challengeHex" else none := by
  unfold confirmBody
  repeat rw [getField_append]
  rw [getField_optEntry_ne "quoteId" "challengeHex" _ (by decide),
      getField_truthyEntry_self,
      getField_optEntry_ne "nonce" "challengeHex" _ (by decide),
      getField_truthyEntry_ne "hashHex" "challengeHex" _ (by decide),
      getField_truthyEntry_ne "expiresAtUnix" "challengeHex" _ (by decide),
      getField_truthyEntry_ne "difficultyBits" "challengeHex" _ (by decide),
      getField_truthyEntry_ne "sig" "challengeHex" _ (by decide)]
  split_ifs <;> cases getField args "challengeHex" <;> simp [Option.or]

theorem confirmBody_nonce (args : JObj) :
    getField (confirmBody args) "nonce" = getField args "nonce" := by
  unfold confirmBody
  repeat rw [getField_append]
  rw [getField_optEntry_ne "quoteId" "nonce" _ (by decide),
      getField_truthyEntry_ne "challengeHex" "nonce" _ (by decide),
      getField_optEntry_self,
      getField_truthyEntry_ne "hashHex" "nonce" _ (by decide),
      getField_truthyEntry_ne "expiresAtUnix" "nonce" _ (by decide),
      getField_truthyEntry_ne "difficultyBits" "nonce" _ (by decide),
      getField_truthyEntry_ne "sig" "nonce" _ (by decide)]
  cases getField args "nonce" <;> simp [Option.or]

theorem confirmBody_hashHex (args : JObj) :
    getField (confirmBody args) "hashHex" =
      if jvTruthyOpt (getField args "hashHex") then getField args "hashHex" else none := by
  unfold confirmBody
  repeat rw [getField_append]
  rw [getField_optEntry_ne "quoteId" "hashHex" _ (by decide),
      getField_truthyEntry_ne "challengeHex" "hashHex" _ (by decide),
      getField_optEntry_ne "nonce" "hashHex" _ (by decide),
      getField_truthyEntry_self,
      getField_truthyEntry_ne "expiresAtUnix" "hashHex" _ (by decide),
      getField_truthyEntry_ne "difficultyBits" "hashHex" _ (by decide),
      getField_truthyEntry_ne "sig" "hashHex" _ (by decide)]
  split_ifs <;> cases getField args "hashHex" <;> simp [Option.or]

theorem confirmBody_expiresAtUnix (args : JObj) :
    getField (confirmBody args) "expiresAtUnix" =
      if jvTruthyOpt (getField args "expiresAtUnix") then getField args "expiresAtUnix" else none := by
  unfold confirmBody
  repeat rw [getField_append]
  rw [getField_optEntry_ne "quoteId" "expiresAtUnix" _ (by decide),
      getField_truthyEntry_ne "challengeHex" "expiresAtUnix" _ (by decide),
      getField_optEntry_ne "nonce" "expiresAtUnix" _ (by decide),
      getField_truthyEntry_ne "hashHex" "expiresAtUnix" _ (by decide),
      getField_truthyEntry_self,
      getField_truthyEntry_ne "difficultyBits" "expiresAtUnix" _ (by decide),
      getField_truthyEntry_ne "sig" "expiresAtUnix" _ (by decide)]
  split_ifs <;> cases getField args "expiresAtUnix" <;> simp [Option.or]

theorem confirmBody_difficultyBits (args : JObj) :
    getField (confirmBody args) "difficultyBits" =
      if jvTruthyOpt (getField args "difficultyBits") then getField args "difficultyBits" else none := by
  unfold confirmBody
  repeat rw [getField_append]
  rw [getField_optEntry_ne "quoteId" "difficultyBits" _ (by decide),
      getField_truthyEntry_ne "challengeHex" "difficultyBits" _ (by decide),
      getField_optEntry_ne "nonce" "difficultyBits" _ (by decide),
      getField_truthyEntry_ne "hashHex" "difficultyBits" _ (by decide),
      getField_truthyEntry_ne "expiresAtUnix" "difficultyBits" _ (by decide),
      getField_truthyEntry_self,
      getField_truthyEntry_ne "sig" "difficultyBits" _ (by decide)]
  split_ifs <;> cases getField args "difficultyBits" <;> simp [Option.or]

theorem confirmBody_sig (args : JObj) :
    getField (confirmBody args) "sig" =
      if jvTruthyOpt (getField args "signature") then getField args "signature" else none := by
  unfold confirmBody
  repeat rw [getField_append]
  rw [getField_optEntry_ne "quoteId" "sig" _ (by decide),
      getField_truthyEntry_ne "challengeHex" "sig" _ (by decide),
      getField_optEntry_ne "nonce" "sig" _ (by decide),
      getField_truthyEntry_ne "hashHex" "sig" _ (by decide),
      getField_truthyEntry_ne "expiresAtUnix" "sig" _ (by decide),
      getField_truthyEntry_ne "difficultyBits" "sig" _ (by decide),
      getField_truthyEntry_self]
  split_ifs <;> cases getField args "signature" <;> simp [Option.or]

theorem confirmBody_signature (args : JObj) :
    getField (confirmBody args) "signature" = none := by
  unfold confirmBody
  repeat rw [getField_append]
  rw [getField_optEntry_ne "quoteId" "signature" _ (by decide),
      getField_truthyEntry_ne "challengeHex" "signature" _ (by decide),
      getField_optEntry_ne "nonce" "signature" _ (by decide),
      getField_truthyEntry_ne "hashHex" "signature" _ (by decide),
      getField_truthyEntry_ne "expiresAtUnix" "signature" _ (by decide),
      getField_truthyEntry_ne "difficultyBits" "signature" _ (by decide),
      getField_truthyEntry_ne "sig" "signature" _ (by decide)]
  simp [Option.or]

/-- On the network path (no demo short-circuit), confirm performs exactly
the one request whose body is `confirmBody args`. -/
theorem confirm_network_trace (cfg : Config) (env : Env) (st : ServerState) (args : JObj)
    (hd : demoHit cfg st args = none) :
    (invoke cfg env st "liveauth_mcp_confirm" args).trace = [confirmRequest cfg args] := by
  unfold invoke dispatch confirmHandler
  simp only [String.reduceEq, reduceIte, hd]
  rcases hf : env.fetch (confirmRequest cfg args) with m | ⟨ok, stx, b⟩ <;> simp [hf]
  split_ifs <;> rfl

/-! ### Concrete fixtures used by witnesses and counterexamples -/

/-- A non-demo configuration (an API key is set, the demo flag is off). -/
def liveCfg : Config := ⟨"https://api.liveauth.app", "k", false⟩

/-- A demo configuration (no API key configured). -/
def demoCfg : Config := ⟨"https://api.liveauth.app", "", false⟩

/-- An environment whose network always answers 2xx with an empty body. -/
def okEnv : Env := ⟨0, "r", fun _ => .fresp true "OK" []⟩

/-- Fully supplied confirm arguments, with an empty-string signature. -/
def c1CexArgs : JObj :=
  [("quoteId", .jstr "q1"), ("challengeHex", .jstr "ab"), ("nonce", .jnum 42),
   ("hashHex", .jstr "00"), ("expiresAtUnix", .jnum 12), ("difficultyBits", .jnum 18),
   ("signature", .jstr "")]

/-- Fully supplied confirm arguments with a non-empty signature. -/
def c1WitArgs : JObj :=
  [("quoteId", .jstr "q1"), ("challengeHex", .jstr "ab"), ("nonce", .jnum 42),
   ("hashHex", .jstr "00"), ("expiresAtUnix", .jnum 12), ("difficultyBits", .jnum 18),
   ("signature", .jstr "s1")]

/-- C1 counterexample: the caller supplies all six challenge-echo fields,
with `signature` the empty string; the handler's truthiness guard then
omits `sig` from the outgoing payload entirely, so the payload does not
contain a `sig` field equal to the `signature` argument as claimed. -/
theorem confirm_sig_empty_signature_cex :
    getField c1CexArgs "signature" = some (.jstr "") ∧
    getField (confirmBody c1CexArgs) "sig" = none ∧
    (invoke liveCfg okEnv initialState "liveauth_mcp_confirm" c1CexArgs).trace =
      [⟨"https://api.liveauth.app/api/mcp/confirm", "POST",
        [contentTypeHeader, ("X-LW-Public", "k")],
        some [("quoteId", .jstr "q1"), ("challengeHex", .jstr "ab"), ("nonce", .jnum 42),
              ("hashHex", .jstr "00"), ("expiresAtUnix", .jnum 12), ("difficultyBits", .jnum 18)]⟩] :=
  ⟨rfl, rfl, rfl⟩

/-- C1 (amended): whenever the supplied `signature` argument is truthy
(in particular any non-empty string), the outgoing confirm payload carries
it under the wire name `sig`; no field spelled `signature` is ever present
in the payload; every other supplied argument field that is included keeps
its argument spelling (`nonce` whenever supplied, the remaining echo
fields whenever supplied and truthy); and on the network path the handler
sends exactly this payload. -/
theorem confirm_sig_wire_rename (cfg : Config) (env : Env) (st : ServerState) (args : JObj) :
    (∀ v, getField args "signature" = some v → jvTruthy v = true →
        getField (confirmBody args) "sig" = some v) ∧
    getField (confirmBody args) "signature" = none ∧
    (∀ v, getField args "quoteId" = some v → getField (confirmBody args) "quoteId" = some v) ∧
    (∀ v, getField args "challengeHex" = some v → jvTruthy v = true →
        getField (confirmBody args) "challengeHex" = some v) ∧
    (∀ v, getField args "nonce" = some v → getField (confirmBody args) "nonce" = some v) ∧
    (∀ v, getField args "hashHex" = some v → jvTruthy v = true →
        getField (confirmBody args) "hashHex" = some v) ∧
    (∀ v, getField args "expiresAtUnix" = some v → jvTruthy v = true →
        getField (confirmBody args) "expiresAtUnix" = some v) ∧
    (∀ v, getField args "difficultyBits" = some v → jvTruthy v = true →
        getField (confirmBody args) "difficultyBits" = some v) ∧
    (demoHit cfg st args = none →
        (invoke cfg env st "liveauth_mcp_confirm" args).trace = [confirmRequest cfg args]) := by
  refine ⟨?_, confirmBody_signature args, ?_, ?_, ?_, ?_, ?_, ?_,
    confirm_network_trace cfg env st args⟩
  · intro v hv ht
    rw [confirmBody_sig, hv]
    simp [jvTruthyOpt, ht]
  · intro v hv
    rw [confirmBody_quoteId, hv]
  · intro v hv ht
    rw [confirmBody_challengeHex, hv]
    simp [jvTruthyOpt, ht]
  · intro v hv
    rw [confirmBody_nonce, hv]
  · intro v hv ht
    rw [confirmBody_hashHex, hv]
    simp [jvTruthyOpt, ht]
  · intro v hv ht
    rw [confirmBody_expiresAtUnix, hv]
    simp [jvTruthyOpt, ht]
  · intro v hv ht
    rw [confirmBody_difficultyBits, hv]
    simp [jvTruthyOpt, ht]

/-- Witness for the amended C1 at a concrete full proof-of-work confirm. -/
theorem confirm_sig_wire_rename_witness :
    getField (confirmBody c1WitArgs) "sig" = some (.jstr "s1") ∧
    getField (confirmBody c1WitArgs) "signature" = none ∧
    (invoke liveCfg okEnv initialState "liveauth_mcp_confirm" c1WitArgs).trace =
      [confirmRequest liveCfg c1WitArgs] :=
  ⟨(confirm_sig_wire_rename liveCfg okEnv initialState c1WitArgs).1 (.jstr "s1") rfl rfl,
   (confirm_sig_wire_rename liveCfg okEnv initialState c1WitArgs).2.1,
   (confirm_sig_wire_rename liveCfg okEnv initialState c1WitArgs).2.2.2.2.2.2.2.2 rfl⟩

/-- Arguments with a supplied but zero-valued optional field. -/
def c9CexArgs : JObj := [("quoteId", .jstr "q2"), ("difficultyBits", .jnum 0)]

/-- Session-id-only confirm arguments. -/
def c9WitArgs : JObj := [("quoteId", .jstr "q3")]

/-- C9 counterexample: `difficultyBits` is present in the argument bag with
value 0, yet the outgoing payload omits it — inclusion is not "if and only
if present". -/
theorem confirm_optional_zero_cex :
    getField c9CexArgs "difficultyBits" = some (.jnum 0) ∧
    confirmBody c9CexArgs = [("quoteId", .jstr "q2")] ∧
    getField (confirmBody c9CexArgs) "difficultyBits" = none :=
  ⟨rfl, rfl, rfl⟩

/-- C9 (amended): `nonce` is included in the outgoing confirm payload if
and only if it is present in the argument bag (any value, even 0 or null);
each of `challengeHex`, `hashHex`, `expiresAtUnix`, `difficultyBits` and
`signature` (as `sig`) is included iff present and truthy — a present but
falsy value is omitted like an absent one; an omitted field is absent from
the payload, never null; and a session-id-only confirm payload carries
exactly the session id. -/
theorem confirm_optional_fields (args : JObj) (q : String) :
    (getField (confirmBody args) "challengeHex" =
      if jvTruthyOpt (getField args "challengeHex") then getField args "challengeHex" else none) ∧
    (getField (confirmBody args) "nonce" = getField args "nonce") ∧
    (getField (confirmBody args) "hashHex" =
      if jvTruthyOpt (getField args "hashHex") then getField args "hashHex" else none) ∧
    (getField (confirmBody args) "expiresAtUnix" =
      if jvTruthyOpt (getField args "expiresAtUnix") then getField args "expiresAtUnix" else none) ∧
    (getField (confirmBody args) "difficultyBits" =
      if jvTruthyOpt (getField args "difficultyBits") then getField args "difficultyBits" else none) ∧
    (getField (confirmBody args) "sig" =
      if jvTruthyOpt (getField args "signature") then getField args "signature" else none) ∧
    (args = [("quoteId", .jstr q)] → confirmBody args = [("quoteId", .jstr q)]) := by
  refine ⟨confirmBody_challengeHex args, confirmBody_nonce args, confirmBody_hashHex args,
    confirmBody_expiresAtUnix args, confirmBody_difficultyBits args, confirmBody_sig args, ?_⟩
  intro h
  subst h
  rfl

/-- Witness for the amended C9: a session-id-only confirm carries only the
session id. -/
theorem confirm_optional_fields_witness :
    confirmBody c9WitArgs = [("quoteId", .jstr "q3")] :=
  (confirm_optional_fields c9WitArgs "q3").2.2.2.2.2.2 rfl

/-- A fresh demo payment record created at time 0. -/
def c2Sess : DemoSession := ⟨"q1", .jstr "inv", .jnum 21, .jstr "h", false, 0⟩

/-- A state holding exactly the demo record for "q1". -/
def c2St : ServerState := ⟨none, [("q1", c2Sess)]⟩

/-- An environment at clock `t` whose network always answers 2xx empty. -/
def atEnv (t : Int) : Env := ⟨t, "r", fun _ => .fresp true "OK" []⟩

/-- C2 counterexample: at elapsed time exactly 2000 ms (equal to the
threshold) the demo status handler still reports `pending`, because the
source guard is strict (`now - createdAt > 2000`), contradicting the
claimed "paid whenever elapsed ≥ 2000 ms". -/
theorem demo_status_threshold_cex :
    (atEnv 2000).now - c2Sess.createdAt ≥ 2000 ∧
    invoke demoCfg (atEnv 2000) c2St "liveauth_mcp_status" [("quoteId", .jstr "q1")] =
      ⟨c2St, ⟨.json (statusDemoOut (atEnv 2000) c2Sess), false⟩, []⟩ ∧
    getField (statusDemoOut (atEnv 2000) c2Sess) "paymentStatus" = some (.jstr "pending") :=
  ⟨by decide, rfl, rfl⟩

/-- C2 (amended): in demo mode, for a tracked unpaid record, status
returns `paymentStatus: pending` (leaving the record unpaid) whenever the
elapsed time is at most the 2000 ms threshold, and returns `paid` (marking
the record paid as a side effect of the read) whenever the elapsed time
strictly exceeds the threshold; once the record is paid every status call
returns `paid`, and every handler other than start preserves paid-ness, so
the transition is monotonic. -/
theorem demo_status_threshold (cfg : Config) (env : Env) (st : ServerState)
    (args : JObj) (q : String) (sess : DemoSession)
    (hd : cfg.demo = true) (hk : getField args "quoteId" = some (.jstr q))
    (hg : alGet st.demoSessions q = some sess) :
    (sess.paid = false → env.now - sess.createdAt ≤ 2000 →
      invoke cfg env st "liveauth_mcp_status" args =
        ⟨st, ⟨.json (statusDemoOut env sess), false⟩, []⟩ ∧
      getField (statusDemoOut env sess) "paymentStatus" = some (.jstr "pending")) ∧
    (sess.paid = false → env.now - sess.createdAt > 2000 →
      invoke cfg env st "liveauth_mcp_status" args =
        ⟨{ st with demoSessions := alSet st.demoSessions q { sess with paid := true } },
         ⟨.json (statusDemoOut env { sess with paid := true }), false⟩, []⟩ ∧
      getField (statusDemoOut env { sess with paid := true }) "paymentStatus" =
        some (.jstr "paid")) ∧
    (sess.paid = true →
      invoke cfg env st "liveauth_mcp_status" args =
        ⟨st, ⟨.json (statusDemoOut env sess), false⟩, []⟩ ∧
      getField (statusDemoOut env sess) "paymentStatus" = some (.jstr "paid")) ∧
    (∀ name args2 env2, name ≠ "liveauth_mcp_start" → sess.paid = true →
      ∃ sess', alGet (invoke cfg env2 st name args2).state.demoSessions q = some sess' ∧
        sess'.paid = true) := by
  have hdh := demoHit_of cfg st args q sess hd hk hg
  refine ⟨?_, ?_, ?_, ?_⟩
  · intro hp hle
    constructor
    · unfold invoke dispatch statusHandler
      simp only [String.reduceEq, reduceIte, hdh]
      have hnot : ¬(env.now - sess.createdAt > 2000) := by omega
      simp [hp, hnot]
    · simp [statusDemoOut, getField, hp]
  · intro hp hgt
    constructor
    · unfold invoke dispatch statusHandler
      simp only [String.reduceEq, reduceIte, hdh]
      simp [hp, hgt]
    · simp [statusDemoOut, getField]
  · intro hp
    constructor
    · unfold invoke dispatch statusHandler
      simp only [String.reduceEq, reduceIte, hdh]
      simp [hp]
    · simp [statusDemoOut, getField, hp]
  · intro name args2 env2 hn hp
    exact paid_preserved cfg env2 st name args2 hn q sess hg hp

/-- Witness for the amended C2 at elapsed time 2001 ms. -/
theorem demo_status_threshold_witness :
    invoke demoCfg (atEnv 2001) c2St "liveauth_mcp_status" [("quoteId", .jstr "q1")] =
      ⟨{ c2St with demoSessions := alSet c2St.demoSessions "q1" { c2Sess with paid := true } },
       ⟨.json (statusDemoOut (atEnv 2001) { c2Sess with paid := true }), false⟩, []⟩ ∧
    getField (statusDemoOut (atEnv 2001) { c2Sess with paid := true }) "paymentStatus" =
      some (.jstr "paid") :=
  (demo_status_threshold demoCfg (atEnv 2001) c2St [("quoteId", .jstr "q1")] "q1" c2Sess
    rfl rfl rfl).2.1 rfl (by decide)

/-- C3: in demo mode, whenever a demo payment record exists for the given
session id, confirm answers locally (no outbound request), marks the
record paid, caches and returns the freshly minted non-empty (hence
non-null) demo token — with no hypothesis on the clock and none on whether
status was ever polled. -/
theorem demo_confirm_mints_token (cfg : Config) (env : Env) (st : ServerState)
    (args : JObj) (q : String) (sess : DemoSession)
    (hd : cfg.demo = true) (hk : getField args "quoteId" = some (.jstr q))
    (hg : alGet st.demoSessions q = some sess) :
    invoke cfg env st "liveauth_mcp_confirm" args =
      ⟨⟨some (.jstr (demoJwt env)), alSet st.demoSessions q { sess with paid := true }⟩,
       ⟨.json (demoConfirmOut env), false⟩, []⟩ ∧
    getField (demoConfirmOut env) "jwt" = some (.jstr (demoJwt env)) ∧
    demoJwt env ≠ "" ∧
    alGet (alSet st.demoSessions q { sess with paid := true }) q =
      some { sess with paid := true } := by
  have hdh := demoHit_of cfg st args q sess hd hk hg
  refine ⟨?_, rfl, ?_, ?_⟩
  · unfold invoke dispatch confirmHandler
    simp only [String.reduceEq, reduceIte, hdh]
  · unfold demoJwt
    intro h
    have hl := congrArg String.length h
    simp [String.length_append] at hl
    exact absurd hl.1.1.1 (by decide)
  · rw [alGet_alSet]
    simp

/-- Witness for C3 at clock 0 (no elapsed time, no prior status poll). -/
theorem demo_confirm_mints_token_witness :
    invoke demoCfg (atEnv 0) c2St "liveauth_mcp_confirm" [("quoteId", .jstr "q1")] =
      ⟨⟨some (.jstr (demoJwt (atEnv 0))), alSet c2St.demoSessions "q1" { c2Sess with paid := true }⟩,
       ⟨.json (demoConfirmOut (atEnv 0)), false⟩, []⟩ ∧
    getField (demoConfirmOut (atEnv 0)) "jwt" = some (.jstr (demoJwt (atEnv 0))) ∧
    demoJwt (atEnv 0) ≠ "" ∧
    alGet (alSet c2St.demoSessions "q1" { c2Sess with paid := true }) "q1" =
      some { c2Sess with paid := true } :=
  demo_confirm_mints_token demoCfg (atEnv 0) c2St [("quoteId", .jstr "q1")] "q1" c2Sess
    rfl rfl rfl

/-- C4 counterexample: in demo mode the start handler still performs an
outbound network call — it fetches the demo endpoint — so "no tool handler
performs any outbound network call in demo mode" is false. -/
theorem demo_start_network_cex :
    demoCfg.demo = true ∧
    (invoke demoCfg (atEnv 0) initialState "liveauth_mcp_start" []).trace =
      [⟨"https://api.liveauth.app/api/public/demo/start", "POST", [contentTypeHeader],
        some [("forceLightning", .jbool false)]⟩] :=
  ⟨rfl, rfl⟩

/-- C4 (amended): in demo mode the usage handler is answered locally with
no outbound request, and so are status and confirm whenever a demo payment
record exists for the session id; the start handler, however, always
performs one outbound request, aimed at the demo endpoint
`/api/public/demo/start`. -/
theorem demo_local_handlers (cfg : Config) (env : Env) (st : ServerState) (args : JObj) :
    (cfg.demo = true → (invoke cfg env st "liveauth_mcp_usage" args).trace = []) ∧
    (∀ q sess, demoHit cfg st args = some (q, sess) →
      (invoke cfg env st "liveauth_mcp_status" args).trace = [] ∧
      (invoke cfg env st "liveauth_mcp_confirm" args).trace = []) ∧
    (cfg.demo = true →
      (invoke cfg env st "liveauth_mcp_start" args).trace = [startRequest cfg args] ∧
      (startRequest cfg args).url = cfg.apiBase ++ "/api/public/demo/start") := by
  refine ⟨?_, ?_, ?_⟩
  · intro hd
    unfold invoke dispatch usageHandler
    simp only [String.reduceEq, reduceIte]
    simp [hd]
  · intro q sess hdh
    constructor
    · unfold invoke dispatch statusHandler
      simp only [String.reduceEq, reduceIte, hdh]
    · unfold invoke dispatch confirmHandler
      simp only [String.reduceEq, reduceIte, hdh]
  · intro hd
    constructor
    · unfold invoke dispatch startHandler
      simp only [String.reduceEq, reduceIte]
      rcases hf : env.fetch (startRequest cfg args) with m | ⟨ok, stx, b⟩ <;> simp [hf]
      split_ifs <;> rfl
    · unfold startRequest
      simp [hd]

/-- Witness for the amended C4 on a concrete demo state. -/
theorem demo_local_handlers_witness :
    (invoke demoCfg (atEnv 0) c2St "liveauth_mcp_usage" [("quoteId", .jstr "q1")]).trace = [] ∧
    (invoke demoCfg (atEnv 0) c2St "liveauth_mcp_status" [("quoteId", .jstr "q1")]).trace = [] ∧
    (invoke demoCfg (atEnv 0) c2St "liveauth_mcp_start" [("quoteId", .jstr "q1")]).trace =
      [startRequest demoCfg [("quoteId", .jstr "q1")]] :=
  ⟨(demo_local_handlers demoCfg (atEnv 0) c2St [("quoteId", .jstr "q1")]).1 rfl,
   ((demo_local_handlers demoCfg (atEnv 0) c2St [("quoteId", .jstr "q1")]).2.1 "q1" c2Sess rfl).1,
   ((demo_local_handlers demoCfg (atEnv 0) c2St [("quoteId", .jstr "q1")]).2.2 rfl).1⟩

/-- C5: the dispatcher never raises — every message thrown inside a
handler is converted by the catch into an error-flagged envelope
`Error: <message>` with the state rolled up unchanged, and an unknown
operation name produces the error-flagged envelope naming it, with no
outbound request and the process state untouched (invocation is a total
function; nothing terminates the process). -/
theorem invoke_never_raises (cfg : Config) (env : Env) (st : ServerState)
    (name : String) (args : JObj) :
    (∀ tr m, dispatch cfg env st name args = (tr, .error m) →
      invoke cfg env st name args = ⟨st, ⟨.plain ("Error: " ++ m), true⟩, tr⟩) ∧
    (name ∉ knownTools →
      invoke cfg env st name args =
        ⟨st, ⟨.plain ("Error: Unknown tool: " ++ name), true⟩, []⟩) := by
  constructor
  · intro tr m h
    unfold invoke
    rw [h]
  · exact invoke_unknown cfg env st name args

/-- Witness for C5 at the unknown operation name "bogus_tool". -/
theorem invoke_never_raises_witness :
    invoke liveCfg okEnv initialState "bogus_tool" [] =
      ⟨initialState, ⟨.plain "Error: Unknown tool: bogus_tool", true⟩, []⟩ :=
  (invoke_never_raises liveCfg okEnv initialState "bogus_tool" []).2 (by decide)

/-- An environment whose network answers every request with a deny body. -/
def denyEnv : Env :=
  ⟨0, "r", fun _ => .fresp true "OK"
    [("status", .jstr "deny"), ("callsUsed", .jnum 7), ("satsUsed", .jnum 30)]⟩

/-- C6: a successful (2xx) charge response with status `deny` produces an
error-flagged envelope whose message carries both the calls-used and the
sats-used counters from the response, leaves the state unchanged, and is
not the `Error:`-prefixed shape of transport/remote failures. -/
theorem charge_deny_flags_error (cfg : Config) (env : Env) (st : ServerState)
    (args : JObj) (stx : String) (b : JObj) (calls sats : Int)
    (hf : env.fetch (chargeRequest cfg st args) = .fresp true stx b)
    (hdeny : getField b "status" = some (.jstr "deny"))
    (hc : getField b "callsUsed" = some (.jnum calls))
    (hs : getField b "satsUsed" = some (.jnum sats)) :
    invoke cfg env st "liveauth_mcp_charge" args =
      ⟨st, ⟨.plain ("Budget exceeded! Calls used: " ++ toString calls ++
            ", Sats used: " ++ toString sats ++ ". Stop making API calls."), true⟩,
       [chargeRequest cfg st args]⟩ := by
  unfold invoke dispatch chargeHandler
  simp only [String.reduceEq, reduceIte]
  have hd : isDenyResp b = true := by simp [isDenyResp, hdeny]
  simp [hf, hd, denyMessage, fieldToString, hc, hs, optToString, jvToString]

/-- Witness for C6 with counters 7 calls and 30 sats. -/
theorem charge_deny_flags_error_witness :
    invoke liveCfg denyEnv initialState "liveauth_mcp_charge" [("callCostSats", .jnum 1)] =
      ⟨initialState,
       ⟨.plain "Budget exceeded! Calls used: 7, Sats used: 30. Stop making API calls.", true⟩,
       [chargeRequest liveCfg initialState [("callCostSats", .jnum 1)]]⟩ :=
  charge_deny_flags_error liveCfg denyEnv initialState [("callCostSats", .jnum 1)] "OK"
    [("status", .jstr "deny"), ("callsUsed", .jnum 7), ("satsUsed", .jnum 30)]
    7 30 rfl rfl rfl rfl

theorem bearerHeaders_falsy (st : ServerState) (h : jvTruthyOpt st.cachedJwt = false) :
    bearerHeaders st = [contentTypeHeader] := by
  unfold bearerHeaders
  cases hc : st.cachedJwt with
  | none => rfl
  | some v =>
      rw [hc] at h
      simp [jvTruthyOpt] at h
      simp [h]

theorem bearerHeaders_truthy (st : ServerState) (v : JVal)
    (hc : st.cachedJwt = some v) (ht : jvTruthy v = true) :
    bearerHeaders st =
      [contentTypeHeader, ("Authorization", "Bearer " ++ jvToString v)] := by
  unfold bearerHeaders
  rw [hc]
  simp [ht]

theorem invoke_charge_trace (cfg : Config) (env : Env) (st : ServerState) (args : JObj) :
    (invoke cfg env st "liveauth_mcp_charge" args).trace = [chargeRequest cfg st args] := by
  unfold invoke dispatch chargeHandler
  simp only [String.reduceEq, reduceIte]
  rcases hf : env.fetch (chargeRequest cfg st args) with m | ⟨ok, stx, b⟩ <;> simp [hf]
  split_ifs <;> rfl

theorem invoke_usage_trace (cfg : Config) (env : Env) (st : ServerState) (args : JObj)
    (hd : cfg.demo = false) :
    (invoke cfg env st "liveauth_mcp_usage" args).trace = [usageRequest cfg st] := by
  unfold invoke dispatch usageHandler
  simp only [String.reduceEq, reduceIte]
  rcases hf : env.fetch (usageRequest cfg st) with m | ⟨ok, stx, b⟩ <;> simp [hd, hf]
  split_ifs <;> rfl

theorem confirm_caches_jwt (cfg : Config) (env : Env) (st : ServerState) (args : JObj)
    (stx : String) (b : JObj) (hnd : demoHit cfg st args = none)
    (hf : env.fetch (confirmRequest cfg args) = .fresp true stx b)
    (hp : isPendingResp b = false)
    (ht : jvTruthyOpt (getField b "jwt") = true) :
    (invoke cfg env st "liveauth_mcp_confirm" args).state =
      { st with cachedJwt := getField b "jwt" } := by
  unfold invoke dispatch confirmHandler
  simp only [String.reduceEq, reduceIte, hnd]
  simp [hf, hp, ht]

/-- The refresh-before-confirm history used as the C7 counterexample. -/
def c7Env : Env :=
  ⟨0, "r", fun r =>
    if r.url = "https://api.liveauth.app/api/mcp/refresh" then
      .fresp true "OK"
        [("jwt", .jstr "newtok"), ("expiresIn", .jnum 3600), ("remainingBudgetSats", .jnum 1000)]
    else .fresp true "OK" []⟩

/-- The state after that refresh. -/
def c7St1 : ServerState :=
  (invoke liveCfg c7Env initialState "liveauth_mcp_refresh" [("refreshToken", .jstr "rt")]).state

/-- C7 counterexample: in the history refresh → charge, no confirm has
ever cached a credential, yet the charge request carries an Authorization
header (the refresh-cached token) — "before any confirm ... no
Authorization header at all" fails. -/
theorem auth_header_before_confirm_cex :
    c7St1.cachedJwt = some (.jstr "newtok") ∧
    (invoke liveCfg c7Env c7St1 "liveauth_mcp_charge" [("callCostSats", .jnum 1)]).trace =
      [⟨"https://api.liveauth.app/api/mcp/charge", "POST",
        [contentTypeHeader, ("Authorization", "Bearer newtok")],
        some [("callCostSats", .jnum 1)]⟩] :=
  ⟨rfl, rfl⟩

/-- C7 (amended): charge and usage attach `Authorization: Bearer <t>`
exactly when a truthy credential `t` is currently cached, and no
Authorization header otherwise; a non-pending successful confirm whose
response carries a truthy `jwt` caches it for the following calls; and no
handler other than confirm and refresh (refresh also caches, even before
any confirm) changes the cached credential. -/
theorem auth_header_tracking (cfg : Config) (env : Env) (st : ServerState) (args : JObj) :
    (jvTruthyOpt st.cachedJwt = false →
      (chargeRequest cfg st args).headers = [contentTypeHeader] ∧
      (usageRequest cfg st).headers = [contentTypeHeader]) ∧
    (∀ v, st.cachedJwt = some v → jvTruthy v = true →
      (chargeRequest cfg st args).headers =
        [contentTypeHeader, ("Authorization", "Bearer " ++ jvToString v)] ∧
      (usageRequest cfg st).headers =
        [contentTypeHeader, ("Authorization", "Bearer " ++ jvToString v)]) ∧
    (invoke cfg env st "liveauth_mcp_charge" args).trace = [chargeRequest cfg st args] ∧
    (cfg.demo = false →
      (invoke cfg env st "liveauth_mcp_usage" args).trace = [usageRequest cfg st]) ∧
    (∀ stx b v, demoHit cfg st args = none →
      env.fetch (confirmRequest cfg args) = .fresp true stx b →
      isPendingResp b = false → getField b "jwt" = some v → jvTruthy v = true →
      (invoke cfg env st "liveauth_mcp_confirm" args).state.cachedJwt = some v) ∧
    (∀ name, name ≠ "liveauth_mcp_confirm" → name ≠ "liveauth_mcp_refresh" →
      (invoke cfg env st name args).state.cachedJwt = st.cachedJwt) := by
  refine ⟨?_, ?_, invoke_charge_trace cfg env st args, invoke_usage_trace cfg env st args,
    ?_, ?_⟩
  · intro h
    exact ⟨by unfold chargeRequest; rw [bearerHeaders_falsy st h],
           by unfold usageRequest; rw [bearerHeaders_falsy st h]⟩
  · intro v hc ht
    exact ⟨by unfold chargeRequest; rw [bearerHeaders_truthy st v hc ht],
           by unfold usageRequest; rw [bearerHeaders_truthy st v hc ht]⟩
  · intro stx b v hnd hf hp hjv
    intro ht
    rw [confirm_caches_jwt cfg env st args stx b hnd hf hp (by simp [jvTruthyOpt, hjv, ht])]
    simp [hjv]
  · intro name h1 h2
    exact invoke_cachedJwt_preserved cfg env st name args h1 h2

/-- A state with a cached truthy credential. -/
def c7WitSt : ServerState := ⟨some (.jstr "tok"), []⟩

/-- Witness for the amended C7: with a cached token the charge request
carries the bearer header; with no cached token it carries none. -/
theorem auth_header_tracking_witness :
    (chargeRequest liveCfg c7WitSt [("callCostSats", .jnum 1)]).headers =
      [contentTypeHeader, ("Authorization", "Bearer tok")] ∧
    (chargeRequest liveCfg initialState [("callCostSats", .jnum 1)]).headers =
      [contentTypeHeader] ∧
    (invoke liveCfg okEnv initialState "liveauth_mcp_charge" [("callCostSats", .jnum 1)]).trace =
      [chargeRequest liveCfg initialState [("callCostSats", .jnum 1)]] :=
  ⟨((auth_header_tracking liveCfg okEnv c7WitSt [("callCostSats", .jnum 1)]).2.1
      (.jstr "tok") rfl rfl).1,
   ((auth_header_tracking liveCfg okEnv initialState [("callCostSats", .jnum 1)]).1 rfl).1,
   (auth_header_tracking liveCfg okEnv initialState [("callCostSats", .jnum 1)]).2.2.1⟩

/-- A state holding a previously cached credential. -/
def c8St : ServerState := ⟨some (.jstr "oldtok"), []⟩

/-- The refresh response body used in the C8 witness. -/
def c8Body : JObj :=
  [("jwt", .jstr "newtok"), ("expiresIn", .jnum 3600), ("remainingBudgetSats", .jnum 1000)]

/-- An environment whose network answers every request with `c8Body`. -/
def c8Env : Env := ⟨0, "r", fun _ => .fresp true "OK" c8Body⟩

/-- C8: a successful refresh overwrites the cached credential with the
response's `jwt` unconditionally — the result does not depend on any prior
cached value — and subsequent charge/usage requests built from the new
state carry `Authorization: Bearer <new jwt>` when it is truthy. -/
theorem refresh_overwrites_credential (cfg : Config) (env : Env) (st : ServerState)
    (args : JObj) (stx : String) (b : JObj)
    (hf : env.fetch (refreshRequest cfg args) = .fresp true stx b) :
    (invoke cfg env st "liveauth_mcp_refresh" args).state.cachedJwt = getField b "jwt" ∧
    (∀ v, getField b "jwt" = some v → jvTruthy v = true → ∀ args2,
      (chargeRequest cfg (invoke cfg env st "liveauth_mcp_refresh" args).state args2).headers =
        [contentTypeHeader, ("Authorization", "Bearer " ++ jvToString v)] ∧
      (usageRequest cfg (invoke cfg env st "liveauth_mcp_refresh" args).state).headers =
        [contentTypeHeader, ("Authorization", "Bearer " ++ jvToString v)]) := by
  have hstate : (invoke cfg env st "liveauth_mcp_refresh" args).state =
      { st with cachedJwt := getField b "jwt" } := by
    unfold invoke dispatch refreshHandler
    simp only [String.reduceEq, reduceIte]
    simp [hf]
  constructor
  · rw [hstate]
  · intro v hv ht args2
    constructor
    · unfold chargeRequest
      rw [bearerHeaders_truthy _ v (by rw [hstate]; simpa using hv) ht]
    · unfold usageRequest
      rw [bearerHeaders_truthy _ v (by rw [hstate]; simpa using hv) ht]

/-- Witness for C8: the old token is gone, the new one is used. -/
theorem refresh_overwrites_credential_witness :
    (invoke liveCfg c8Env c8St "liveauth_mcp_refresh" [("refreshToken", .jstr "rt")]).state.cachedJwt =
      some (.jstr "newtok") ∧
    (chargeRequest liveCfg
      (invoke liveCfg c8Env c8St "liveauth_mcp_refresh" [("refreshToken", .jstr "rt")]).state
      []).headers = [contentTypeHeader, ("Authorization", "Bearer newtok")] :=
  ⟨(refresh_overwrites_credential liveCfg c8Env c8St [("refreshToken", .jstr "rt")] "OK" c8Body
      rfl).1,
   ((refresh_overwrites_credential liveCfg c8Env c8St [("refreshToken", .jstr "rt")] "OK" c8Body
      rfl).2 (.jstr "newtok") rfl rfl []).1⟩

/-- An environment whose network rejects every request. -/
def throwEnv : Env := ⟨0, "r", fun _ => .fthrow "ECONNREFUSED"⟩

/-- C10: on the network path, confirm is atomic with respect to the cached
credential: a transport throw or a non-2xx response leaves the whole state
unchanged (the throw is surfaced as the Error envelope); a pending
response returns the poll instruction without caching anything, even if a
jwt were present; a successful non-pending response with a falsy/absent
jwt changes nothing; only a truthy jwt is cached; and conversely any
change to the cached credential implies such a response. -/
theorem confirm_atomic_credential (cfg : Config) (env : Env) (st : ServerState)
    (args : JObj) (hnd : demoHit cfg st args = none) :
    (∀ m, env.fetch (confirmRequest cfg args) = .fthrow m →
      invoke cfg env st "liveauth_mcp_confirm" args =
        ⟨st, ⟨.plain ("Error: " ++ m), true⟩, [confirmRequest cfg args]⟩) ∧
    (∀ stx b, env.fetch (confirmRequest cfg args) = .fresp false stx b →
      invoke cfg env st "liveauth_mcp_confirm" args =
        ⟨st, ⟨.plain ("Error: " ++ remoteErrMsg b ("Confirm failed: " ++ stx)), true⟩,
         [confirmRequest cfg args]⟩) ∧
    (∀ stx b, env.fetch (confirmRequest cfg args) = .fresp true stx b →
      isPendingResp b = true →
      invoke cfg env st "liveauth_mcp_confirm" args =
        ⟨st, ⟨.plain ("Lightning payment pending. Poll with liveauth_mcp_status using quoteId: " ++
              optToString (getField args "quoteId")), false⟩,
         [confirmRequest cfg args]⟩) ∧
    (∀ stx b, env.fetch (confirmRequest cfg args) = .fresp true stx b →
      isPendingResp b = false → jvTruthyOpt (getField b "jwt") = false →
      (invoke cfg env st "liveauth_mcp_confirm" args).state = st) ∧
    (∀ stx b, env.fetch (confirmRequest cfg args) = .fresp true stx b →
      isPendingResp b = false → jvTruthyOpt (getField b "jwt") = true →
      (invoke cfg env st "liveauth_mcp_confirm" args).state =
        { st with cachedJwt := getField b "jwt" }) ∧
    ((invoke cfg env st "liveauth_mcp_confirm" args).state.cachedJwt ≠ st.cachedJwt →
      ∃ stx b, env.fetch (confirmRequest cfg args) = .fresp true stx b ∧
        isPendingResp b = false ∧ jvTruthyOpt (getField b "jwt") = true ∧
        (invoke cfg env st "liveauth_mcp_confirm" args).state.cachedJwt = getField b "jwt") := by
  have h1 : ∀ m, env.fetch (confirmRequest cfg args) = .fthrow m →
      invoke cfg env st "liveauth_mcp_confirm" args =
        ⟨st, ⟨.plain ("Error: " ++ m), true⟩, [confirmRequest cfg args]⟩ := by
    intro m hf
    unfold invoke dispatch confirmHandler
    simp only [String.reduceEq, reduceIte, hnd]
    simp [hf]
  have h2 : ∀ stx b, env.fetch (confirmRequest cfg args) = .fresp false stx b →
      invoke cfg env st "liveauth_mcp_confirm" args =
        ⟨st, ⟨.plain ("Error: " ++ remoteErrMsg b ("Confirm failed: " ++ stx)), true⟩,
         [confirmRequest cfg args]⟩ := by
    intro stx b hf
    unfold invoke dispatch confirmHandler
    simp only [String.reduceEq, reduceIte, hnd]
    simp [hf]
  have h3 : ∀ stx b, env.fetch (confirmRequest cfg args) = .fresp true stx b →
      isPendingResp b = true →
      invoke cfg env st "liveauth_mcp_confirm" args =
        ⟨st, ⟨.plain ("Lightning payment pending. Poll with liveauth_mcp_status using quoteId: " ++
              optToString (getField args "quoteId")), false⟩,
         [confirmRequest cfg args]⟩ := by
    intro stx b hf hp
    unfold invoke dispatch confirmHandler
    simp only [String.reduceEq, reduceIte, hnd]
    simp [hf, hp]
  have h4 : ∀ stx b, env.fetch (confirmRequest cfg args) = .fresp true stx b →
      isPendingResp b = false → jvTruthyOpt (getField b "jwt") = false →
      (invoke cfg env st "liveauth_mcp_confirm" args).state = st := by
    intro stx b hf hp ht
    unfold invoke dispatch confirmHandler
    simp only [String.reduceEq, reduceIte, hnd]
    simp [hf, hp, ht]
  have h5 : ∀ stx b, env.fetch (confirmRequest cfg args) = .fresp true stx b →
      isPendingResp b = false → jvTruthyOpt (getField b "jwt") = true →
      (invoke cfg env st "liveauth_mcp_confirm" args).state =
        { st with cachedJwt := getField b "jwt" } :=
    fun stx b hf hp ht => confirm_caches_jwt cfg env st args stx b hnd hf hp ht
  refine ⟨h1, h2, h3, h4, h5, ?_⟩
  intro hne
  rcases hf : env.fetch (confirmRequest cfg args) with m | ⟨ok, stx, b⟩
  · rw [h1 m hf] at hne
    simp at hne
  · cases ok with
    | false =>
        rw [h2 stx b hf] at hne
        simp at hne
    | true =>
        by_cases hp : isPendingResp b
        · rw [h3 stx b hf hp] at hne
          simp at hne
        · by_cases ht : jvTruthyOpt (getField b "jwt")
          · refine ⟨stx, b, rfl, by simpa using hp, ht, ?_⟩
            rw [h5 stx b hf (by simpa using hp) ht]
          · rw [h4 stx b hf (by simpa using hp) (by simpa using ht)] at hne
            simp at hne

/-- Witness for C10: a transport failure surfaces as the Error envelope
with the state unchanged. -/
theorem confirm_atomic_credential_witness :
    invoke liveCfg throwEnv initialState "liveauth_mcp_confirm" [("quoteId", .jstr "q")] =
      ⟨initialState, ⟨.plain "Error: ECONNREFUSED", true⟩,
       [confirmRequest liveCfg [("quoteId", .jstr "q")]]⟩ :=
  (confirm_atomic_credential liveCfg throwEnv initialState [("quoteId", .jstr "q")] rfl).1
    "ECONNREFUSED" rfl

end LiveAuth
